import Mathlib

/-!
Shallow embedding of the scenario-evaluation logic of
`src/main.py` (nuclear-simulator): the derived metrics computed from the
slider inputs (lines 80-84) and the Sankey flow construction with its
surplus/shortfall reconciliation (lines 100-123).  Real-number arithmetic
of the source is modelled over `ℚ`; the integer sliders produce values
that are exact in `ℚ`, and every constant of the program (4.8, 8.2, 0.8,
the mix proportions 0.4/0.2/0.2/0.2, base demand 1000, horizon 10) is an
exact rational.
-/

namespace NuclearSim

/-- `co2_reduction = reactors * (1 - green_pct / 100) * 4.8` (main.py line 80). -/
def co2_reduction (reactors green_pct : ℚ) : ℚ :=
  reactors * (1 - green_pct / 100) * 4.8

/-- `risk_index = max(0, 10 - regulation) * (reactors / 100)` (main.py line 81). -/
def risk_index (regulation reactors : ℚ) : ℚ :=
  max 0 (10 - regulation) * (reactors / 100)

/-- `energy_output = reactors * (funding / 100) * 8.2` (main.py line 82). -/
def energy_output (reactors funding : ℚ) : ℚ :=
  reactors * (funding / 100) * 8.2

/-- `biodiv_loss = water_pct * 0.8` (main.py line 83). -/
def biodiv_loss (water_pct : ℚ) : ℚ :=
  water_pct * 0.8

/-- `proj_demand = 1000 * (1 + pop_growth / 100) ** 10` (main.py line 84). -/
def proj_demand (pop_growth : ℚ) : ℚ :=
  1000 * (1 + pop_growth / 100) ^ 10

/-- The Sankey node labels (main.py line 100). -/
def labels : List String :=
  ["Demand", "Nuclear", "Solar", "Wind", "Hydro", "Surplus", "Shortfall"]

/-- The energy mix dict (main.py lines 101-106): `energy_output` split over
the four sources in fixed proportions 0.4/0.2/0.2/0.2. -/
def mix (energy_output : ℚ) : List (String × ℚ) :=
  [("Nuclear", energy_output * 0.4), ("Solar", energy_output * 0.2),
   ("Wind", energy_output * 0.2), ("Hydro", energy_output * 0.2)]

/-- `supplied = sum(mix.values())` (main.py line 115). -/
def supplied (e : ℚ) : ℚ :=
  ((mix e).map Prod.snd).sum

/-- A Sankey link as one entry of the parallel `sources`/`targets`/`values`
lists of main.py lines 109-123: (source index, target index, value). -/
abbrev Link := Nat × Nat × ℚ

/-- The links appended by the `for src, val in mix.items()` loop
(main.py lines 110-113): each mix source flows into "Demand". -/
def mixLinks (e : ℚ) : List Link :=
  (mix e).map (fun p => (labels.indexOf p.1, labels.indexOf "Demand", p.2))

/-- The links appended by the surplus/shortfall conditional
(main.py lines 116-123): if `supplied > demand` one Demand→Surplus link of
value `supplied - demand`, else one Shortfall→Demand link of value
`demand - supplied`. -/
def reconciliation (supplied demand : ℚ) : List Link :=
  if supplied > demand then
    [(labels.indexOf "Demand", labels.indexOf "Surplus", supplied - demand)]
  else
    [(labels.indexOf "Shortfall", labels.indexOf "Demand", demand - supplied)]

/-- All Sankey links (main.py lines 109-123). -/
def sankeyLinks (e demand : ℚ) : List Link :=
  mixLinks e ++ reconciliation (supplied e) demand

/-- The slider inputs of a scenario (main.py lines 72-77). -/
structure ScenarioInputs where
  funding : ℚ
  regulation : ℚ
  reactors : ℚ
  green_pct : ℚ
  water_pct : ℚ
  pop_growth : ℚ

/-- The derived outputs of one evaluation: the five metrics of lines 80-84
and the Sankey links of lines 109-123. -/
structure ScenarioOutputs where
  co2 : ℚ
  risk : ℚ
  energy : ℚ
  biodiv : ℚ
  demand : ℚ
  links : List Link

/-- One full evaluation of the simulation logic (main.py lines 80-123). -/
def evaluate (i : ScenarioInputs) : ScenarioOutputs :=
  { co2 := co2_reduction i.reactors i.green_pct
  , risk := risk_index i.regulation i.reactors
  , energy := energy_output i.reactors i.funding
  , biodiv := biodiv_loss i.water_pct
  , demand := proj_demand i.pop_growth
  , links := sankeyLinks (energy_output i.reactors i.funding) (proj_demand i.pop_growth) }

/-- The spec's output-per-reactor constant. -/
def K_output : ℚ := 8.2

/-- The spec's CO₂-avoided-per-reactor constant. -/
def K_co2 : ℚ := 4.8

/-- The spec's base demand. -/
def base_demand : ℚ := 1000

/-- The spec's projection horizon in years. -/
def horizon_years : ℕ := 10

/-- The spec's formula `energy_output = reactors * (funding/100) * K_output`. -/
def energy_output_spec (reactors funding : ℚ) : ℚ :=
  reactors * (funding / 100) * K_output

/-- The spec's formula `risk_index = max(0, 10 - regulation) * (reactors / 100)`. -/
def risk_index_spec (regulation reactors : ℚ) : ℚ :=
  max 0 (10 - regulation) * (reactors / 100)

/-- The spec's formula `co2_avoided = reactors * (1 - green_pct/100) * K_co2`. -/
def co2_avoided_spec (reactors green_pct : ℚ) : ℚ :=
  reactors * (1 - green_pct / 100) * K_co2

/-- The spec's formula
`projected_demand = base_demand * (1 + pop_growth/100) ^ horizon_years`. -/
def projected_demand_spec (pop_growth : ℚ) : ℚ :=
  base_demand * (1 + pop_growth / 100) ^ horizon_years

/-- Modelled from the spec: `weighted_capacity_factor = Σ_source
weight_source/100 * capacity_factor_source` over the four sources
Nuclear/Solar/Wind/Hydro.  The weighted-mix computation belongs to the
repository's second, near-duplicate dashboard implementation, which is not
under src/ (src/ holds only main.py). -/
def weighted_capacity_factor (wN wS wW wH cN cS cW cH : ℚ) : ℚ :=
  wN / 100 * cN + wS / 100 * cS + wW / 100 * cW + wH / 100 * cH

/-- Modelled from the spec: `weighted_co2_intensity = Σ_source
weight_source/100 * co2_intensity_source` over the four sources
Nuclear/Solar/Wind/Hydro; same provenance as `weighted_capacity_factor`. -/
def weighted_co2_intensity (wN wS wW wH iN iS iW iH : ℚ) : ℚ :=
  wN / 100 * iN + wS / 100 * iS + wW / 100 * iW + wH / 100 * iH

/-- A weighted sum with nonnegative weights summing to 100 is at least the
common lower bound of the four coefficients. -/
theorem convex4_lower (a b c d x y z w m : ℚ)
    (ha : 0 ≤ a) (hb : 0 ≤ b) (hc : 0 ≤ c) (hd : 0 ≤ d)
    (hsum : a + b + c + d = 100)
    (hx : m ≤ x) (hy : m ≤ y) (hz : m ≤ z) (hw : m ≤ w) :
    m ≤ a / 100 * x + b / 100 * y + c / 100 * z + d / 100 * w := by
  have key : a * m + b * m + c * m + d * m = 100 * m := by
    linear_combination m * hsum
  linarith [mul_le_mul_of_nonneg_left hx ha, mul_le_mul_of_nonneg_left hy hb,
    mul_le_mul_of_nonneg_left hz hc, mul_le_mul_of_nonneg_left hw hd, key]

/-- A weighted sum with nonnegative weights summing to 100 is at most the
common upper bound of the four coefficients. -/
theorem convex4_upper (a b c d x y z w M : ℚ)
    (ha : 0 ≤ a) (hb : 0 ≤ b) (hc : 0 ≤ c) (hd : 0 ≤ d)
    (hsum : a + b + c + d = 100)
    (hx : x ≤ M) (hy : y ≤ M) (hz : z ≤ M) (hw : w ≤ M) :
    a / 100 * x + b / 100 * y + c / 100 * z + d / 100 * w ≤ M := by
  have key : a * M + b * M + c * M + d * M = 100 * M := by
    linear_combination M * hsum
  linarith [mul_le_mul_of_nonneg_left hx ha, mul_le_mul_of_nonneg_left hy hb,
    mul_le_mul_of_nonneg_left hz hc, mul_le_mul_of_nonneg_left hw hd, key]

/-- C1: for every valid input (reactors ∈ [0,200], funding ∈ [0,100]),
`energy_output` equals the spec formula `reactors * (funding/100) * K_output`
with `K_output = 8.2`; in particular `energy_output 100 50 = 410`. -/
theorem energy_output_matches_spec (reactors funding : ℚ)
    (hr0 : 0 ≤ reactors) (hr1 : reactors ≤ 200)
    (hf0 : 0 ≤ funding) (hf1 : funding ≤ 100) :
    energy_output reactors funding = energy_output_spec reactors funding ∧
    K_output = 8.2 ∧ energy_output 100 50 = 410 :=
  ⟨rfl, rfl, by norm_num [energy_output]⟩

/-- C1 witness at reactors = 100, funding = 50. -/
theorem energy_output_matches_spec_witness :
    energy_output 100 50 = energy_output_spec 100 50 ∧
    K_output = 8.2 ∧ energy_output 100 50 = 410 :=
  energy_output_matches_spec 100 50 (by norm_num) (by norm_num)
    (by norm_num) (by norm_num)

/-- C2: for every valid input (regulation ∈ [0,10], reactors ∈ [0,200]),
`risk_index` equals the spec formula
`max(0, 10 - regulation) * (reactors / 100)`; in particular
`risk_index 5 100 = 5`. -/
theorem risk_index_matches_spec (regulation reactors : ℚ)
    (hg0 : 0 ≤ regulation) (hg1 : regulation ≤ 10)
    (hr0 : 0 ≤ reactors) (hr1 : reactors ≤ 200) :
    risk_index regulation reactors = risk_index_spec regulation reactors ∧
    risk_index 5 100 = 5 :=
  ⟨rfl, by norm_num [risk_index]⟩

/-- C2 witness at regulation = 5, reactors = 100. -/
theorem risk_index_matches_spec_witness :
    risk_index 5 100 = risk_index_spec 5 100 ∧ risk_index 5 100 = 5 :=
  risk_index_matches_spec 5 100 (by norm_num) (by norm_num)
    (by norm_num) (by norm_num)

/-- C3: for every valid input (reactors ∈ [0,200], green_pct ∈ [0,100]),
`co2_reduction` equals the spec formula
`reactors * (1 - green_pct/100) * K_co2` with `K_co2 = 4.8`. -/
theorem co2_reduction_matches_spec (reactors green_pct : ℚ)
    (hr0 : 0 ≤ reactors) (hr1 : reactors ≤ 200)
    (hg0 : 0 ≤ green_pct) (hg1 : green_pct ≤ 100) :
    co2_reduction reactors green_pct = co2_avoided_spec reactors green_pct ∧
    K_co2 = 4.8 :=
  ⟨rfl, rfl⟩

/-- C3 witness at reactors = 100, green_pct = 20. -/
theorem co2_reduction_matches_spec_witness :
    co2_reduction 100 20 = co2_avoided_spec 100 20 ∧ K_co2 = 4.8 :=
  co2_reduction_matches_spec 100 20 (by norm_num) (by norm_num)
    (by norm_num) (by norm_num)

/-- C4: for every valid input (pop_growth ∈ [0,5]), `proj_demand` equals the
spec formula `base_demand * (1 + pop_growth/100) ^ horizon_years` with
`base_demand = 1000` and `horizon_years = 10`. -/
theorem proj_demand_matches_spec (pop_growth : ℚ)
    (hp0 : 0 ≤ pop_growth) (hp1 : pop_growth ≤ 5) :
    proj_demand pop_growth = projected_demand_spec pop_growth ∧
    base_demand = 1000 ∧ horizon_years = 10 :=
  ⟨rfl, rfl, rfl⟩

/-- C4 witness at pop_growth = 1. -/
theorem proj_demand_matches_spec_witness :
    proj_demand 1 = projected_demand_spec 1 ∧
    base_demand = 1000 ∧ horizon_years = 10 :=
  proj_demand_matches_spec 1 (by norm_num) (by norm_num)

/-- C5: the reconciliation appends exactly one link: a Demand→Surplus link of
value `supplied - demand` when supply strictly exceeds demand, and a
Shortfall→Demand link of value `demand - supplied` otherwise; with demand
1000 and supply 900 a shortfall link of value 100 results, with supply 1100
a surplus link of value 100. -/
theorem reconciliation_single_link (s d : ℚ) :
    (reconciliation s d).length = 1 ∧
    (d < s → reconciliation s d =
      [(labels.indexOf "Demand", labels.indexOf "Surplus", s - d)]) ∧
    (s ≤ d → reconciliation s d =
      [(labels.indexOf "Shortfall", labels.indexOf "Demand", d - s)]) ∧
    reconciliation 900 1000 =
      [(labels.indexOf "Shortfall", labels.indexOf "Demand", 100)] ∧
    reconciliation 1100 1000 =
      [(labels.indexOf "Demand", labels.indexOf "Surplus", 100)] := by
  refine ⟨?_, ?_, ?_, ?_, ?_⟩
  · unfold reconciliation
    split <;> rfl
  · intro h
    simp only [reconciliation]
    rw [if_pos h]
  · intro h
    simp only [reconciliation]
    rw [if_neg (not_lt.mpr h)]
  · norm_num [reconciliation]
  · norm_num [reconciliation]

/-- C10: when supply exactly equals demand the shortfall branch is taken and
the appended link is Shortfall→Demand with value 0; a Surplus link appears
only when supply strictly exceeds demand; and the reconciliation link's
value is always nonnegative. -/
theorem reconciliation_boundary (s d : ℚ) :
    reconciliation d d =
      [(labels.indexOf "Shortfall", labels.indexOf "Demand", 0)] ∧
    (∀ t ∈ reconciliation s d, t.2.1 = labels.indexOf "Surplus" → d < s) ∧
    (∀ t ∈ reconciliation s d, 0 ≤ t.2.2) := by
  refine ⟨?_, ?_, ?_⟩
  · simp only [reconciliation]
    rw [if_neg (lt_irrefl d)]
    norm_num
  · intro t ht
    unfold reconciliation at ht
    by_cases h : d < s
    · intro _
      exact h
    · rw [if_neg h] at ht
      simp only [List.mem_singleton] at ht
      subst ht
      intro habs
      have hidx : labels.indexOf "Demand" = labels.indexOf "Surplus" := habs
      exact absurd hidx (by decide)
  · intro t ht
    unfold reconciliation at ht
    by_cases h : d < s
    · rw [if_pos h] at ht
      simp only [List.mem_singleton] at ht
      subst ht
      simpa using (sub_pos.mpr h).le
    · rw [if_neg h] at ht
      simp only [List.mem_singleton] at ht
      subst ht
      simpa using sub_nonneg.mpr (not_lt.mp h)

/-- C6: for nonnegative weights over Nuclear/Solar/Wind/Hydro summing to 100,
`weighted_capacity_factor` and `weighted_co2_intensity` each lie between the
minimum and the maximum of their four source constants; in particular equal
25% weights with capacity factors 81.5/23.5/36/44 give 46.25. -/
theorem weighted_mix_convex_bounds (wN wS wW wH cN cS cW cH iN iS iW iH : ℚ)
    (hN : 0 ≤ wN) (hS : 0 ≤ wS) (hW : 0 ≤ wW) (hH : 0 ≤ wH)
    (hsum : wN + wS + wW + wH = 100) :
    (min cN (min cS (min cW cH)) ≤ weighted_capacity_factor wN wS wW wH cN cS cW cH ∧
      weighted_capacity_factor wN wS wW wH cN cS cW cH ≤ max cN (max cS (max cW cH))) ∧
    (min iN (min iS (min iW iH)) ≤ weighted_co2_intensity wN wS wW wH iN iS iW iH ∧
      weighted_co2_intensity wN wS wW wH iN iS iW iH ≤ max iN (max iS (max iW iH))) ∧
    weighted_capacity_factor 25 25 25 25 81.5 23.5 36 44 = 46.25 := by
  refine ⟨⟨?_, ?_⟩, ⟨?_, ?_⟩, ?_⟩
  · exact convex4_lower wN wS wW wH cN cS cW cH _ hN hS hW hH hsum
      (min_le_left _ _)
      ((min_le_right _ _).trans (min_le_left _ _))
      ((min_le_right _ _).trans ((min_le_right _ _).trans (min_le_left _ _)))
      ((min_le_right _ _).trans ((min_le_right _ _).trans (min_le_right _ _)))
  · exact convex4_upper wN wS wW wH cN cS cW cH _ hN hS hW hH hsum
      (le_max_left _ _)
      ((le_max_left _ _).trans (le_max_right _ _))
      (((le_max_left _ _).trans (le_max_right _ _)).trans (le_max_right _ _))
      (((le_max_right _ _).trans (le_max_right _ _)).trans (le_max_right _ _))
  · exact convex4_lower wN wS wW wH iN iS iW iH _ hN hS hW hH hsum
      (min_le_left _ _)
      ((min_le_right _ _).trans (min_le_left _ _))
      ((min_le_right _ _).trans ((min_le_right _ _).trans (min_le_left _ _)))
      ((min_le_right _ _).trans ((min_le_right _ _).trans (min_le_right _ _)))
  · exact convex4_upper wN wS wW wH iN iS iW iH _ hN hS hW hH hsum
      (le_max_left _ _)
      ((le_max_left _ _).trans (le_max_right _ _))
      (((le_max_left _ _).trans (le_max_right _ _)).trans (le_max_right _ _))
      (((le_max_right _ _).trans (le_max_right _ _)).trans (le_max_right _ _))
  · norm_num [weighted_capacity_factor]

/-- C6 witness: equal 25% weights with the published capacity factors and
CO₂ intensities. -/
theorem weighted_mix_convex_bounds_witness :
    (min 81.5 (min 23.5 (min 36 44)) ≤
        weighted_capacity_factor 25 25 25 25 81.5 23.5 36 44 ∧
      weighted_capacity_factor 25 25 25 25 81.5 23.5 36 44 ≤
        max 81.5 (max 23.5 (max 36 44))) ∧
    (min 12 (min 48 (min 11 24)) ≤
        weighted_co2_intensity 25 25 25 25 12 48 11 24 ∧
      weighted_co2_intensity 25 25 25 25 12 48 11 24 ≤
        max 12 (max 48 (max 11 24))) ∧
    weighted_capacity_factor 25 25 25 25 81.5 23.5 36 44 = 46.25 :=
  weighted_mix_convex_bounds 25 25 25 25 81.5 23.5 36 44 12 48 11 24
    (by norm_num) (by norm_num) (by norm_num) (by norm_num) (by norm_num)

/-- C7: for fixed reactors ≥ 0, `co2_reduction` is monotonically
non-increasing in green_pct on [0,100]. -/
theorem co2_reduction_antitone_green (reactors g1 g2 : ℚ)
    (hr : 0 ≤ reactors) (h0 : 0 ≤ g1) (h12 : g1 ≤ g2) (h2 : g2 ≤ 100) :
    co2_reduction reactors g2 ≤ co2_reduction reactors g1 := by
  unfold co2_reduction
  nlinarith [mul_le_mul_of_nonneg_left h12 hr]

/-- C7 witness at reactors = 100, green_pct 20 ≤ 80. -/
theorem co2_reduction_antitone_green_witness :
    co2_reduction 100 80 ≤ co2_reduction 100 20 :=
  co2_reduction_antitone_green 100 20 80 (by norm_num) (by norm_num)
    (by norm_num) (by norm_num)

/-- C8: `energy_output` is monotonically non-decreasing in funding (reactors
fixed in [0,200]) and in reactors (funding fixed in [0,100]). -/
theorem energy_output_monotone (r f1 f2 f r1 r2 : ℚ)
    (hr0 : 0 ≤ r) (hr200 : r ≤ 200)
    (hf1 : 0 ≤ f1) (h12 : f1 ≤ f2) (hf2 : f2 ≤ 100)
    (hf0 : 0 ≤ f) (hf100 : f ≤ 100)
    (hr1 : 0 ≤ r1) (hr12 : r1 ≤ r2) (hr2 : r2 ≤ 200) :
    energy_output r f1 ≤ energy_output r f2 ∧
    energy_output r1 f ≤ energy_output r2 f := by
  unfold energy_output
  constructor
  · nlinarith [mul_le_mul_of_nonneg_left h12 hr0]
  · nlinarith [mul_le_mul_of_nonneg_right hr12 hf0]

/-- C8 witness at reactors = 100 with funding 40 ≤ 60, and funding = 50 with
reactors 80 ≤ 120. -/
theorem energy_output_monotone_witness :
    energy_output 100 40 ≤ energy_output 100 60 ∧
    energy_output 80 50 ≤ energy_output 120 50 :=
  energy_output_monotone 100 40 60 50 80 120 (by norm_num) (by norm_num)
    (by norm_num) (by norm_num) (by norm_num) (by norm_num) (by norm_num)
    (by norm_num) (by norm_num) (by norm_num)

/-- C9: the evaluation is deterministic: equal inputs give equal outputs
(all five metrics and the Sankey links). -/
theorem evaluate_deterministic (i j : ScenarioInputs) (h : i = j) :
    evaluate i = evaluate j := by
  rw [h]

/-- C9 witness at the default scenario inputs. -/
theorem evaluate_deterministic_witness :
    evaluate ⟨50, 5, 100, 20, 30, 1⟩ = evaluate ⟨50, 5, 100, 20, 30, 1⟩ :=
  evaluate_deterministic ⟨50, 5, 100, 20, 30, 1⟩ ⟨50, 5, 100, 20, 30, 1⟩ rfl

end NuclearSim
